import Mathlib

/-!
Verification of the xmlrw facade layer (xml::reader / xml::writer over the
XmlLite and libxml2 backends).

The development shallowly embeds the facade code of `src/xml`:

* the error translator of `xmllite_errmsg.cpp` (HRESULT classification and the
  message tables) is embedded exactly, with `HRESULT` values carried as 32-bit
  bit patterns (`Nat` below `2^32`) and the C++ signed arithmetic made explicit;
* the reader/writer member functions are embedded as pure functions of the
  engine-reported status codes (the underlying XML engines are external
  collaborators; where a property needs engine behaviour, a small state model
  of the engine's documented pull/push contract is used and is documented as
  such at each definition).
-/

namespace Xmlrw

/-- Two's-complement reinterpretation of a 32-bit bit pattern as a signed
value.  The C++ `HRESULT` is a signed 32-bit integer; this development carries
`HRESULT` bit patterns as `Nat` (below `2 ^ 32`). -/
def toSigned (n : Nat) : Int :=
  if n < 2 ^ 31 then (n : Int) else (n : Int) - 2 ^ 32

/-- The Windows `FAILED` macro: an `HRESULT` denotes failure iff it is
negative as a signed 32-bit value. -/
def FAILED (hr : Nat) : Bool :=
  decide (toSigned hr < 0)

/-- The `S_OK` success `HRESULT`. -/
def S_OK : Nat := 0

/-- The `S_FALSE` benign-completion `HRESULT` (returned by
`IXmlReader::Read` once input is exhausted). -/
def S_FALSE : Nat := 1

/-- The `reader_errmsg` table of `xmllite_errmsg.cpp`, transcribed entry by
entry (the original's index comments skip `0x10`–`0x1F` and `0x2E`, but the
array itself is contiguous; its extent is the `List.length` here). -/
def reader_errmsg : List String := [
  (""),
  ("unexpected end of input"),
  ("unrecognized encoding"),
  ("unable to switch the encoding"),
  ("unrecognized input signature"),
  (""),
  (""),
  (""),
  (""),
  (""),
  (""),
  (""),
  (""),
  (""),
  (""),
  (""),
  (""),
  ("whitespace expected"),
  ("semicolon expected"),
  ("\x27>\x27 expected"),
  ("quote expected"),
  ("equal expected"),
  ("well-formedness constraint: no \x27<\x27 in attribute value"),
  ("hexadecimal digit expected"),
  ("\x27[\x27 expected"),
  ("\x27(\x27 expected"),
  ("illegal XML character"),
  ("illegal name character"),
  ("incorrect document syntax"),
  ("incorrect CDATA section syntax"),
  ("incorrect comment syntax"),
  ("incorrect conditional section syntax"),
  ("incorrect ATTLIST declaration syntax"),
  ("incorrect DOCTYPE declaration syntax"),
  ("incorrect ELEMENT declaration syntax"),
  ("incorrect ENTITY declaration syntax"),
  ("incorrect NOTATION declaration syntax"),
  ("NDATA expected"),
  ("PUBLIC expected"),
  ("SYSTEM expected"),
  ("name expected"),
  ("one root element"),
  ("well-formedness constraint: element type match"),
  ("well-formedness constraint: unique attribute spec"),
  ("text/xmldecl not at the beginning of input"),
  ("leading \"xml\""),
  ("incorrect text declaration syntax"),
  ("incorrect XML declaration syntax"),
  ("incorrect encoding name syntax"),
  ("incorrect public identifier syntax"),
  ("well-formedness constraint: pes in internal subset"),
  ("well-formedness constraint: pes between declarations"),
  ("well-formedness constraint: no recursion"),
  ("entity content not well formed"),
  ("well-formedness constraint: undeclared entity"),
  ("well-formedness constraint: parsed entity"),
  ("well-formedness constraint: no external entity references"),
  ("incorrect processing instruction syntax"),
  ("incorrect system identifier syntax"),
  ("\x27?\x27 expected"),
  ("no \x27]]>\x27 in element content"),
  ("not all chunks of value have been read"),
  ("DTD was found but is prohibited"),
  ("xml:space attribute with invalid value"),
  (""),
  (""),
  (""),
  (""),
  (""),
  (""),
  (""),
  (""),
  (""),
  (""),
  (""),
  (""),
  (""),
  (""),
  (""),
  (""),
  ("illegal qualified name character"),
  ("multiple colons in qualified name"),
  ("colon in name"),
  ("declared prefix"),
  ("undeclared prefix"),
  ("nondefault namespace with empty URI"),
  ("\"xml\" prefix is reserved and must have the http://www.w3.org/XML/1998/namespace URI"),
  ("\"xmlns\" prefix is reserved for use by XML"),
  ("xml namespace URI (http://www.w3.org/XML/1998/namespace) must bee assigned only to prefix \"xml\""),
  ("xmlns namespace URI (http://www.w3.org/2000/xmlns/) is reserved and must not be used"),
  (""),
  (""),
  (""),
  (""),
  (""),
  (""),
  (""),
  (""),
  (""),
  (""),
  (""),
  (""),
  (""),
  (""),
  (""),
  (""),
  (""),
  (""),
  (""),
  (""),
  (""),
  (""),
  ("element depth exceeds limit in XmlReaderProperty_MaxElementDepth"),
  ("entity expansion exceeds limit in XmlReaderProperty_MaxEntityExpansion")]

/-- The `writer_errmsg` table of `xmllite_errmsg.cpp`. -/
def writer_errmsg : List String := [
  (""),
  ("specified string is not whitespace"),
  ("namespace prefix is already declared with a different namespace"),
  ("it is not allowed to declare a namespace prefix with empty URI"),
  ("duplicate attribute"),
  ("can not redefine the xmlns prefix"),
  ("xml prefix must have the http://www.w3.org/XML/1998/namespace URI"),
  ("xml namespace URI (http://www.w3.org/XML/1998/namespace) must be assigned only to prefix \"xml\""),
  ("xmlns namespace URI (http://www.w3.org/2000/xmlns/) is reserved and must not be used"),
  ("namespace is not declared"),
  ("invalid value of xml:space attribute (allowed values are \"default\" and \"preserve\")"),
  ("performing the requested action would result in invalid XML document"),
  ("input contains invalid or incomplete surrogate pair")]

/-- The `misc_errmsg` table of `xmllite_errmsg.cpp`. -/
def misc_errmsg : List String := [
  ("character in character entity is not a decimal digit as was expected"),
  ("character in character entity is not a hexadecimal digit as was expected"),
  ("character entity has invalid Unicode value")]

/-- `xmllite_misc_hresult_base` (`0xC00CE01D`). -/
def xmllite_misc_hresult_base : Nat := 0xC00CE01D

/-- `xmllite_reader_hresult_base` (`0xC00CEE00`). -/
def xmllite_reader_hresult_base : Nat := 0xC00CEE00

/-- `xmllite_writer_hresult_base` (`0xC00CEF00`). -/
def xmllite_writer_hresult_base : Nat := 0xC00CEF00

/-- The C++ expression `hr >> 8` on an `HRESULT`: an arithmetic right shift of
the signed 32-bit value, i.e. floor division by 256. -/
def hresult_shr8 (hr : Nat) : Int :=
  Int.ediv (toSigned hr) 256

/-- The C++ expression `hr - base` where both operands are `HRESULT` (signed
32-bit) and the result is converted to `size_t` (unsigned 64-bit): the signed
difference reduced modulo `2 ^ 64`. -/
def hresult_sub_to_size_t (hr base : Nat) : Nat :=
  ((toSigned hr - toSigned base).emod (2 ^ 64)).toNat

/-- `misc_errmsg_index` of `xmllite_errmsg.cpp`. -/
def misc_errmsg_index (hr : Nat) : Nat :=
  hresult_sub_to_size_t hr xmllite_misc_hresult_base

/-- `reader_errmsg_index` of `xmllite_errmsg.cpp`. -/
def reader_errmsg_index (hr : Nat) : Nat :=
  hresult_sub_to_size_t hr xmllite_reader_hresult_base

/-- `writer_errmsg_index` of `xmllite_errmsg.cpp`. -/
def writer_errmsg_index (hr : Nat) : Nat :=
  hresult_sub_to_size_t hr xmllite_writer_hresult_base

/-- `is_xmllite_misc_error`: base-range comparison of the top 24 bits plus a
bounds check against the `misc_errmsg` extent. -/
def is_xmllite_misc_error (hr : Nat) : Bool :=
  decide (hresult_shr8 hr = hresult_shr8 xmllite_misc_hresult_base) &&
    decide (misc_errmsg_index hr < misc_errmsg.length)

/-- `xml::detail::is_xmllite_reader_error`. -/
def is_xmllite_reader_error (hr : Nat) : Bool :=
  (decide (hresult_shr8 hr = hresult_shr8 xmllite_reader_hresult_base) &&
      decide (reader_errmsg_index hr < reader_errmsg.length)) ||
    is_xmllite_misc_error hr

/-- `xml::detail::is_xmllite_writer_error`. -/
def is_xmllite_writer_error (hr : Nat) : Bool :=
  (decide (hresult_shr8 hr = hresult_shr8 xmllite_writer_hresult_base) &&
      decide (writer_errmsg_index hr < writer_errmsg.length)) ||
    is_xmllite_misc_error hr

/-- `xml::parse_error`: a line number and a message. -/
structure parse_error where
  line : Nat
  msg : String
deriving DecidableEq

/-- `xml::write_error`: a message. -/
structure write_error where
  msg : String
deriving DecidableEq

/-- `xml::detail::throw_parse_error`: the parse error constructed from the
line reported by `IXmlReader::GetLineNumber` and the message selected by
`reader_errmsg[reader_errmsg_index(hr)]`.  The C++ performs the array access
unconditionally; an out-of-bounds index (undefined behaviour in the source,
see the safety analysis of the index) is modelled with the `getD` default. -/
def throw_parse_error (line hr : Nat) : parse_error :=
  ⟨line, reader_errmsg.getD (reader_errmsg_index hr) ("")⟩

/-- `xml::detail::throw_write_error`, message selected by
`writer_errmsg[writer_errmsg_index(hr)]` (same out-of-bounds caveat). -/
def throw_write_error (hr : Nat) : write_error :=
  ⟨writer_errmsg.getD (writer_errmsg_index hr) ("")⟩

/-- Equality comparisons on `Except` values are decidable componentwise. -/
instance exceptDecEq {ε α : Type} [DecidableEq ε] [DecidableEq α] :
    DecidableEq (Except ε α)
  | Except.error a, Except.error b =>
    if h : a = b then Decidable.isTrue (congrArg Except.error h)
    else Decidable.isFalse (fun hc => h (Except.error.inj hc))
  | Except.error _, Except.ok _ => Decidable.isFalse (fun hc => Except.noConfusion hc)
  | Except.ok _, Except.error _ => Decidable.isFalse (fun hc => Except.noConfusion hc)
  | Except.ok a, Except.ok b =>
    if h : a = b then Decidable.isTrue (congrArg Except.ok h)
    else Decidable.isFalse (fun hc => h (Except.ok.inj hc))

/-! ## Reader facade: failure translation (XmlLite branch)

On the XmlLite backend, `xml::reader::read`, `move_to_first_attribute` and
`move_to_next_attribute` share one translation of the engine-returned
`HRESULT`: if the call failed and the `HRESULT` is one of XmlLite's own reader
errors, the parse error built by `throw_parse_error` (with the line fetched
from `IXmlReader::GetLineNumber`) is thrown; otherwise the member returns
`hr == S_OK`. -/

/-- The common XmlLite-branch body of `xml::reader::read`,
`xml::reader::move_to_first_attribute` and
`xml::reader::move_to_next_attribute`, as a function of the engine-returned
`HRESULT` and the engine-reported current line. -/
def xmllite_reader_advance (hr line : Nat) : Except parse_error Bool :=
  if FAILED hr then
    if is_xmllite_reader_error hr then
      Except.error (throw_parse_error line hr)
    else
      Except.ok (decide (hr = S_OK))
  else
    Except.ok (decide (hr = S_OK))

/-! ## Reader facade: failure translation (libxml branch) -/

/-- The libxml-branch body of `xml::reader::read` (and of the two attribute
moves, which are textually identical): a negative engine result throws the
stored `impl_->error`; otherwise the `int` result converts to `bool`. -/
def libxml_read_translate (result : Int) (stored : parse_error) :
    Except parse_error Bool :=
  if result < 0 then Except.error stored else Except.ok (decide (result ≠ 0))

/-- One engine-level event of libxml's `xmlTextReaderRead` stream:
a node was produced; a parse failure was reported through the registered
`xmlTextReaderErrorFunc` and `-1` returned; or `-1` was returned without the
error callback firing. -/
inductive libxml_read_event where
  | node
  | errWith (line : Nat) (msg : String)
  | errSilent
deriving DecidableEq

/-- State of a libxml-backend `xml::reader::impl`: the engine's remaining
node stream together with the stored `parse_error error` member. -/
structure libxml_reader_state where
  events : List libxml_read_event
  error : parse_error
deriving DecidableEq

/-- The `impl` constructors initialize the stored error as `error{0, ""}`. -/
def libxml_initial_error : parse_error := ⟨0, ("")⟩

/-- `xml_reader_errorFunc`: overwrites the stored error with a parse error
carrying the locator-reported line and the message. -/
def xml_reader_errorFunc (st : libxml_reader_state) (line : Nat) (msg : String) :
    libxml_reader_state :=
  { st with error := ⟨line, msg⟩ }

/-- Model of the external engine call `xmlTextReaderRead`, from its documented
pull contract: `1` while a node is available, `0` once input is exhausted
(persistently: the engine does not refill), `-1` on error, with the error
callback firing (updating the stored error) before a `-1` return for events
that report details.  Error events latch: the engine stays in its failure
state, so the event is not consumed. -/
def libxml_engine_step (st : libxml_reader_state) : Int × libxml_reader_state :=
  match st.events with
  | [] => (0, st)
  | libxml_read_event.node :: rest => (1, { st with events := rest })
  | libxml_read_event.errWith l m :: _ => (-1, xml_reader_errorFunc st l m)
  | libxml_read_event.errSilent :: _ => (-1, st)

/-- `xml::reader::read` on the libxml backend: one engine step followed by the
source's result translation against the stored error. -/
def libxml_read (st : libxml_reader_state) :
    Except parse_error (Bool × libxml_reader_state) :=
  let step := libxml_engine_step st
  match libxml_read_translate step.1 step.2.error with
  | Except.error e => Except.error e
  | Except.ok b => Except.ok (b, step.2)

/-- `n + 1` successive calls to `read`, returning the outcome of the last. -/
def libxml_reads : Nat → libxml_reader_state →
    Except parse_error (Bool × libxml_reader_state)
  | 0, st => libxml_read st
  | Nat.succ n, st =>
    match libxml_read st with
    | Except.error e => Except.error e
    | Except.ok (_, st2) => libxml_reads n st2

/-- One engine-level event of `IXmlReader::Read`: a node was produced, or the
engine reported the `HRESULT` `hr`. -/
inductive xmllite_read_event where
  | node
  | errHr (hr : Nat)
deriving DecidableEq

/-- State of an XmlLite-backend reader: the engine's remaining node stream
and the line `IXmlReader::GetLineNumber` currently reports. -/
structure xmllite_reader_state where
  events : List xmllite_read_event
  line : Nat
deriving DecidableEq

/-- Model of the external engine call `IXmlReader::Read`, from its documented
contract: `S_OK` while a node is available, `S_FALSE` once input is exhausted
(persistently), and a reported `HRESULT` on failure.  Failure events latch:
the engine (or the failed input stream beneath it) stays in its failure
state, so the event is not consumed. -/
def xmllite_engine_step (st : xmllite_reader_state) : Nat × xmllite_reader_state :=
  match st.events with
  | [] => (S_FALSE, st)
  | xmllite_read_event.node :: rest => (S_OK, { st with events := rest })
  | xmllite_read_event.errHr hr :: _ => (hr, st)

/-- `xml::reader::read` on the XmlLite backend: one engine step followed by
the source's `HRESULT` translation. -/
def xmllite_read_op (st : xmllite_reader_state) :
    Except parse_error (Bool × xmllite_reader_state) :=
  let step := xmllite_engine_step st
  match xmllite_reader_advance step.1 st.line with
  | Except.error e => Except.error e
  | Except.ok b => Except.ok (b, step.2)

/-- `n + 1` successive calls to `read`, returning the outcome of the last. -/
def xmllite_reads : Nat → xmllite_reader_state →
    Except parse_error (Bool × xmllite_reader_state)
  | 0, st => xmllite_read_op st
  | Nat.succ n, st =>
    match xmllite_read_op st with
    | Except.error e => Except.error e
    | Except.ok (_, st2) => xmllite_reads n st2

/-! ## Reader facade: name accessors -/

/-- `xml::reader::qualified_name`, libxml branch, as a function of the
`xmlTextReaderConstName` outcome (`none` models a `NULL` return): a missing
name throws `std::runtime_error{"failed to get element name"}`, modelled as
the `Except.error` message. -/
def qualified_name_libxml (name : Option String) : Except String String :=
  match name with
  | none => Except.error ("failed to get element name")
  | some s => Except.ok s

/-- `xml::reader::qualified_name`, XmlLite branch, as a function of the
`IXmlReader::GetQualifiedName` outcome: a failed `HRESULT` throws
`std::runtime_error{"failed to get element name"}`. -/
def qualified_name_xmllite (hr : Nat) (name : String) : Except String String :=
  if FAILED hr then Except.error ("failed to get element name") else Except.ok name

/-! ## Stream bridge: read side -/

/-- A C++ `std::istream` as the callbacks see it: the bytes not yet consumed
and the three state flags. -/
structure cpp_istream where
  remaining : List Nat
  eofbit : Bool
  failbit : Bool
  badbit : Bool
deriving DecidableEq

/-- `std::istream`'s `operator bool`: true iff neither `failbit` nor `badbit`
is set. -/
def cpp_istream.toBool (s : cpp_istream) : Bool :=
  !(s.failbit || s.badbit)

/-- `std::istream::read(buf, n)`: if the stream is not `good()` the sentry
fails and `failbit` is set with nothing extracted; otherwise up to `n` bytes
are extracted, and reaching end-of-stream before `n` bytes sets `eofbit` and
`failbit`.  Returns `gcount()` and the new stream state. -/
def istream_read (s : cpp_istream) (n : Nat) : Nat × cpp_istream :=
  if s.failbit || s.badbit || s.eofbit then
    (0, { s with failbit := true })
  else
    let k := min n s.remaining.length
    let s2 := { s with remaining := s.remaining.drop k }
    if k < n then (k, { s2 with eofbit := true, failbit := true })
    else (k, s2)

/-- `xml_reader_inputReadCallback` (libxml branch of the stream bridge):
`in.read(buffer, len)` and then `in ? gcount : -1`. -/
def xml_reader_inputReadCallback (s : cpp_istream) (len : Nat) :
    Int × cpp_istream :=
  let r := istream_read s len
  if r.2.toBool then ((r.1 : Int), r.2) else (-1, r.2)

/-- `com_istream::Read` (XmlLite branch of the stream bridge), for the default
non-throwing stream: `in_.read(pv, cb)`, report `gcount()` through `pcbRead`,
and return `S_FALSE` on a short read, `S_OK` otherwise.  Result triple:
`(HRESULT, *pcbRead, stream)`.  (The null-pointer guard and the exception
handlers of the source are unreachable in this model: the modelled stream has
valid pointers and default, non-throwing, exception masks.) -/
def com_istream_Read (s : cpp_istream) (cb : Nat) : Nat × Nat × cpp_istream :=
  let r := istream_read s cb
  (if r.1 < cb then S_FALSE else S_OK, r.1, r.2)

/-! ## Writer facade

The writer claims need the element stack and the buffered output that libxml's
`xmlTextWriter` maintains internally (the facade holds no duplicate state), so
the external engine is modelled by a small state machine following libxml's
documented behaviour, and the facade members are embedded on top of it.  The
XmlLite branch members are embedded as functions of the engine-returned
`HRESULT`, exactly like the reader ones. -/

/-- One serialized item of writer output. -/
inductive OutItem where
  | decl (version : String) (encoding : Option String) (sa : Option String)
  | startTag (pfx localName nsUri : String)
  | endTag (localName : String)
  | attrItem (pfx localName nsUri value : String)
  | commentItem (text : String)
deriving DecidableEq

/-- Model of a libxml `xmlTextWriter`: whether the document was started, the
LIFO of open elements, the buffered (not yet flushed) output, the output
already pushed to the destination sink, and whether the sink accepts writes. -/
structure XmlTextWriter where
  started : Bool
  openElements : List String
  buffer : List OutItem
  sink : List OutItem
  sinkOk : Bool
deriving DecidableEq

/-- End tags closing the given open-element stack, innermost first. -/
def closeTags (els : List String) : List OutItem :=
  els.map OutItem.endTag

/-- The post-state of a successful start-document: document marked started
and the XML declaration buffered (version defaulting to `"1.0"`). -/
def startDocumentState (s : XmlTextWriter) (version encoding sa : Option String) : XmlTextWriter :=
  { s with started := true, buffer := s.buffer ++ [OutItem.decl (version.getD ("1.0")) encoding sa] }

/-- The post-state of a start-element: element pushed, start tag buffered. -/
def startElementState (s : XmlTextWriter) (pfx localName nsUri : String) : XmlTextWriter :=
  { s with openElements := localName :: s.openElements, buffer := s.buffer ++ [OutItem.startTag pfx localName nsUri] }

/-- The post-state of an end-element popping `top` off the stack. -/
def endElementState (s : XmlTextWriter) (top : String) (rest : List String) : XmlTextWriter :=
  { s with openElements := rest, buffer := s.buffer ++ [OutItem.endTag top] }

/-- The post-state of a successful end-document: every open element closed
and all buffered output flushed to the sink. -/
def endDocumentState (s : XmlTextWriter) : XmlTextWriter :=
  { s with openElements := [], buffer := [], sink := s.sink ++ (s.buffer ++ closeTags s.openElements) }

/-- Model of `xmlTextWriterStartDocument` (external engine, documented
behaviour): fails with `-1` if a document was already started, otherwise
buffers an XML declaration whose version defaults to `"1.0"` when `NULL` was
passed. -/
def xmlTextWriterStartDocument (s : XmlTextWriter) (version : Option String)
    (encoding : Option String) (sa : Option String) : Int × XmlTextWriter :=
  if s.started then (-1, s)
  else (0, startDocumentState s version encoding sa)

/-- Model of `xmlTextWriterStartElementNS` (external engine): pushes the
element and buffers its start tag. -/
def xmlTextWriterStartElementNS (s : XmlTextWriter) (pfx localName nsUri : String) :
    Int × XmlTextWriter :=
  (0, startElementState s pfx localName nsUri)

/-- Model of `xmlTextWriterEndElement` (external engine, documented
behaviour): rejects with `-1` when no element is open, otherwise pops the
innermost element and buffers its end tag. -/
def xmlTextWriterEndElement (s : XmlTextWriter) : Int × XmlTextWriter :=
  match s.openElements with
  | [] => (-1, s)
  | top :: rest => (0, endElementState s top rest)

/-- Model of `xmlTextWriterEndDocument` (external engine, documented
behaviour): closes every element still open, then flushes all buffered output
to the sink; reports `-1` when the sink rejects the flush. -/
def xmlTextWriterEndDocument (s : XmlTextWriter) : Int × XmlTextWriter :=
  if s.sinkOk then (0, endDocumentState s)
  else (-1, s)

/-- `xml::writer::standalone` (`omit = 0`, `yes = 1`, `no = 2`). -/
inductive standalone where
  | omit
  | yes
  | no
deriving DecidableEq

/-- The `sa_str` selection in `xml::writer::start_document` (libxml branch):
`(sa == yes) ? "yes" : (sa == no) ? "no" : NULL`. -/
def standalone_str (sa : standalone) : Option String :=
  match sa with
  | standalone.yes => some ("yes")
  | standalone.no => some ("no")
  | standalone.omit => none

/-- `xml::writer::start_document`, libxml branch: version `NULL` (default),
encoding `"utf-8"`, standalone per `standalone_str`; a `-1` result throws
`write_error{"error starting document"}`. -/
def start_document_libxml (sa : standalone) (s : XmlTextWriter) :
    Except write_error XmlTextWriter :=
  let r := xmlTextWriterStartDocument s none (some ("utf-8")) (standalone_str sa)
  if r.1 = -1 then Except.error ⟨("error starting document")⟩ else Except.ok r.2

/-- `xml::writer::end_document`, libxml branch: a `-1` result throws
`write_error{"error ending document"}`. -/
def end_document_libxml (s : XmlTextWriter) : Except write_error XmlTextWriter :=
  let r := xmlTextWriterEndDocument s
  if r.1 = -1 then Except.error ⟨("error ending document")⟩ else Except.ok r.2

/-- `xml::writer::end_document`, XmlLite branch: the body is empty (the
engine flushes and closes at destruction), so the call is a no-op success. -/
def end_document_xmllite : Except write_error Unit :=
  Except.ok ()

/-- `xml::writer::start_element`, libxml branch. -/
def start_element_libxml (sa : XmlTextWriter) (pfx localName nsUri : String) :
    Except write_error XmlTextWriter :=
  let r := xmlTextWriterStartElementNS sa pfx localName nsUri
  if r.1 = -1 then Except.error ⟨("error starting element")⟩ else Except.ok r.2

/-- `xml::writer::end_element`, libxml branch: a `-1` result throws
`write_error{"error ending element"}`. -/
def end_element_libxml (s : XmlTextWriter) : Except write_error XmlTextWriter :=
  let r := xmlTextWriterEndElement s
  if r.1 = -1 then Except.error ⟨("error ending element")⟩ else Except.ok r.2

/-- The common XmlLite-branch failure translation of the writer members
(`start_document`, `end_element`, ...): a failed `HRESULT` in XmlLite's own
writer-error space throws the `throw_write_error` message; any other result
falls through silently. -/
def xmllite_writer_op (hr : Nat) : Except write_error Unit :=
  if FAILED hr then
    if is_xmllite_writer_error hr then Except.error (throw_write_error hr)
    else Except.ok ()
  else Except.ok ()

/-- `xml::writer::start_document`, XmlLite branch, as a function of the
`IXmlWriter::WriteStartDocument` result (the `standalone` argument is passed
through to the engine as the identical numeric `XmlStandalone` value). -/
def start_document_xmllite (_sa : standalone) (hr : Nat) : Except write_error Unit :=
  xmllite_writer_op hr

/-- `xml::writer::end_element`, XmlLite branch, as a function of the
`IXmlWriter::WriteEndElement` result. -/
def end_element_xmllite (hr : Nat) : Except write_error Unit :=
  xmllite_writer_op hr

/-- The `HRESULT` `WR_E_INVALIDACTION` (`0xC00CEF0B`), which the XmlLite
writer documentation assigns to a `WriteEndElement` with no open element
("performing the requested action would result in invalid XML document"). -/
def WR_E_INVALIDACTION : Nat := 0xC00CEF0B

/-- A writer call affecting the element stack. -/
inductive WriterOp where
  | startEl (pfx localName nsUri : String)
  | endEl
deriving DecidableEq

/-- Run a sequence of facade `start_element` / `end_element` calls on the
libxml backend, stopping at the first thrown `write_error`. -/
def run_writer_ops : List WriterOp → XmlTextWriter → Except write_error XmlTextWriter
  | [], s => Except.ok s
  | WriterOp.startEl p l n :: rest, s =>
    match start_element_libxml s p l n with
    | Except.error e => Except.error e
    | Except.ok s2 => run_writer_ops rest s2
  | WriterOp.endEl :: rest, s =>
    match end_element_libxml s with
    | Except.error e => Except.error e
    | Except.ok s2 => run_writer_ops rest s2

/-- With `n` elements already open, does the sequence at some point call
`end_element` more times than there are unmatched `start_element` calls? -/
def excess_end : Nat → List WriterOp → Bool
  | _, [] => false
  | n, WriterOp.startEl _ _ _ :: rest => excess_end (n + 1) rest
  | 0, WriterOp.endEl :: _ => true
  | Nat.succ n, WriterOp.endEl :: rest => excess_end n rest

/-! ## Reader node types -/

/-- `xml::reader::node_type_id` with the numeric values of `reader.h`. -/
inductive node_type_id where
  | none_id
  | element_id
  | attribute_id
  | text_id
  | cdata_id
  | processing_instruction_id
  | comment_id
  | document_type_id
  | whitespace_id
  | end_element_id
  | xml_declaration_id
deriving DecidableEq

/-- The numeric value of each `node_type_id` enumerator. -/
def node_type_id.val : node_type_id → Nat
  | node_type_id.none_id => 0
  | node_type_id.element_id => 1
  | node_type_id.attribute_id => 2
  | node_type_id.text_id => 3
  | node_type_id.cdata_id => 4
  | node_type_id.processing_instruction_id => 7
  | node_type_id.comment_id => 8
  | node_type_id.document_type_id => 10
  | node_type_id.whitespace_id => 13
  | node_type_id.end_element_id => 15
  | node_type_id.xml_declaration_id => 17

/-- All enumerators. -/
def allNodeTypes : List node_type_id := [
  node_type_id.none_id, node_type_id.element_id, node_type_id.attribute_id,
  node_type_id.text_id, node_type_id.cdata_id,
  node_type_id.processing_instruction_id, node_type_id.comment_id,
  node_type_id.document_type_id, node_type_id.whitespace_id,
  node_type_id.end_element_id, node_type_id.xml_declaration_id]

/-- `xml::reader::node_type` is `static_cast<node_type_id>(code)` of the
engine-reported numeric code, on both backends: the numeric value passes
through unchanged, with no translation table.  The cast is modelled as the
value-preserving partial inverse of `node_type_id.val`. -/
def node_type_cast (code : Nat) : Option node_type_id :=
  allNodeTypes.find? (fun t => node_type_id.val t == code)

/-! ## Helper lemmas -/

/-- A failed `HRESULT` is never `S_OK`. -/
theorem FAILED_ne_S_OK (hr : Nat) (h : FAILED hr = true) : hr ≠ S_OK := by
  intro h0
  rw [h0] at h
  exact absurd h (by decide)

/-- `read` on an exhausted libxml reader reports `false` and leaves the state
unchanged. -/
theorem libxml_read_nil (st : libxml_reader_state) (h : st.events = []) :
    libxml_read st = Except.ok (false, st) := by
  obtain ⟨evs, err⟩ := st
  cases evs with
  | nil => rfl
  | cons a b => exact absurd h (by simp)

/-- Inversion: `read` reports `false` on the libxml backend only when the
engine stream is exhausted, and then the state is unchanged. -/
theorem libxml_read_false_inv (st st' : libxml_reader_state)
    (h : libxml_read st = Except.ok (false, st')) : st' = st ∧ st.events = [] := by
  obtain ⟨evs, err⟩ := st
  cases evs with
  | nil =>
    have h2 : (Except.ok (false, (⟨[], err⟩ : libxml_reader_state)) :
        Except parse_error (Bool × libxml_reader_state)) = Except.ok (false, st') := h
    simp only [Except.ok.injEq, Prod.mk.injEq, true_and] at h2
    exact ⟨h2.symm, rfl⟩
  | cons e rest =>
    cases e with
    | node =>
      have h2 : (Except.ok (true, (⟨rest, err⟩ : libxml_reader_state)) :
          Except parse_error (Bool × libxml_reader_state)) = Except.ok (false, st') := h
      simp at h2
    | errWith l m =>
      have h2 : (Except.error (⟨l, m⟩ : parse_error) :
          Except parse_error (Bool × libxml_reader_state)) = Except.ok (false, st') := h
      exact Except.noConfusion h2
    | errSilent =>
      have h2 : (Except.error err :
          Except parse_error (Bool × libxml_reader_state)) = Except.ok (false, st') := h
      exact Except.noConfusion h2

/-- Every further `read` on an exhausted libxml reader reports `false`. -/
theorem libxml_reads_nil (n : Nat) :
    ∀ st : libxml_reader_state, st.events = [] →
      libxml_reads n st = Except.ok (false, st) := by
  induction n with
  | zero => intro st h; exact libxml_read_nil st h
  | succ n ih =>
    intro st h
    simp only [libxml_reads]
    rw [libxml_read_nil st h]
    exact ih st h

/-- Inversion: `read` reports `false` on the XmlLite backend only with the
state unchanged (exhaustion latches at `S_FALSE`, and a masked foreign failure
latches at its failing `HRESULT`). -/
theorem xmllite_read_false_inv (t t' : xmllite_reader_state)
    (h : xmllite_read_op t = Except.ok (false, t')) : t' = t := by
  obtain ⟨evs, ln⟩ := t
  cases evs with
  | nil =>
    have hr : xmllite_read_op ⟨[], ln⟩ =
        Except.ok (false, (⟨[], ln⟩ : xmllite_reader_state)) := rfl
    rw [hr] at h
    simp only [Except.ok.injEq, Prod.mk.injEq, true_and] at h
    exact h.symm
  | cons e rest =>
    cases e with
    | node =>
      have hr : xmllite_read_op ⟨xmllite_read_event.node :: rest, ln⟩ =
          Except.ok (true, (⟨rest, ln⟩ : xmllite_reader_state)) := rfl
      rw [hr] at h
      simp at h
    | errHr hr0 =>
      cases hadv : xmllite_reader_advance hr0 ln with
      | error e =>
        have h2 : (Except.error e :
            Except parse_error (Bool × xmllite_reader_state)) = Except.ok (false, t') := by
          rw [← h]
          show Except.error e =
            (match xmllite_reader_advance hr0 ln with
              | Except.error e => Except.error e
              | Except.ok b =>
                Except.ok (b, (⟨xmllite_read_event.errHr hr0 :: rest, ln⟩ :
                  xmllite_reader_state)))
          rw [hadv]
        exact Except.noConfusion h2
      | ok b =>
        have h2 : (Except.ok (b, (⟨xmllite_read_event.errHr hr0 :: rest, ln⟩ :
            xmllite_reader_state)) :
            Except parse_error (Bool × xmllite_reader_state)) = Except.ok (false, t') := by
          rw [← h]
          show Except.ok (b, (⟨xmllite_read_event.errHr hr0 :: rest, ln⟩ :
              xmllite_reader_state)) =
            (match xmllite_reader_advance hr0 ln with
              | Except.error e => Except.error e
              | Except.ok b =>
                Except.ok (b, (⟨xmllite_read_event.errHr hr0 :: rest, ln⟩ :
                  xmllite_reader_state)))
          rw [hadv]
        simp only [Except.ok.injEq, Prod.mk.injEq] at h2
        exact h2.2.symm

/-- A state on which `read` reports `false` without changing the state keeps
reporting `false` on every further call (XmlLite backend). -/
theorem xmllite_reads_fixed (n : Nat) :
    ∀ t : xmllite_reader_state, xmllite_read_op t = Except.ok (false, t) →
      xmllite_reads n t = Except.ok (false, t) := by
  induction n with
  | zero => intro t h; exact h
  | succ n ih =>
    intro t h
    simp only [xmllite_reads]
    rw [h]
    exact ih t h

/-- Any writer-call sequence that at some point has called `end_element` more
often than there are unmatched `start_element` calls (starting from the given
state's open elements) runs into the engine rejection, surfaced as the
`end_element` write error. -/
theorem run_writer_ops_excess (ops : List WriterOp) :
    ∀ s : XmlTextWriter, excess_end s.openElements.length ops = true →
      run_writer_ops ops s = Except.error ⟨("error ending element")⟩ := by
  induction ops with
  | nil => intro s h; simp [excess_end] at h
  | cons op rest ih =>
    intro s h
    cases op with
    | startEl p l n =>
      have h2 : excess_end ((l :: s.openElements).length) rest = true := by
        simpa [excess_end] using h
      have hrun : run_writer_ops (WriterOp.startEl p l n :: rest) s =
          run_writer_ops rest (startElementState s p l n) := by
        simp [run_writer_ops, start_element_libxml, xmlTextWriterStartElementNS]
      rw [hrun]
      exact ih _ h2
    | endEl =>
      cases hoe : s.openElements with
      | nil =>
        simp [run_writer_ops, end_element_libxml, xmlTextWriterEndElement, hoe]
      | cons top rests =>
        have h2 : excess_end rests.length rest = true := by
          rw [hoe] at h
          simpa [excess_end] using h
        have hrun : run_writer_ops (WriterOp.endEl :: rest) s =
            run_writer_ops rest (endElementState s top rests) := by
          simp [run_writer_ops, end_element_libxml, xmlTextWriterEndElement, hoe]
        rw [hrun]
        exact ih _ h2

/-! ## Claims -/

/-- C1: for every failure signal seen by `read` / `move_to_first_attribute` /
`move_to_next_attribute`: a signal classified as the engine's own (by
`is_xmllite_reader_error` on XmlLite, or by a negative return code on libxml)
raises a Parse Error carrying the engine-reported line, and any other failure
signal raises nothing and makes the operation return `false`. -/
theorem C1_failure_signal_translation (hr line : Nat) (result : Int)
    (stored : parse_error) (hfail : FAILED hr = true) :
    (is_xmllite_reader_error hr = true →
      xmllite_reader_advance hr line =
        Except.error ⟨line, reader_errmsg.getD (reader_errmsg_index hr) ("")⟩) ∧
    (is_xmllite_reader_error hr = false →
      xmllite_reader_advance hr line = Except.ok false) ∧
    (result < 0 → libxml_read_translate result stored = Except.error stored) ∧
    (result = 0 → libxml_read_translate result stored = Except.ok false) := by
  refine ⟨fun hcls => ?_, fun hcls => ?_, fun hneg => ?_, fun h0 => ?_⟩
  · simp [xmllite_reader_advance, hfail, hcls, throw_parse_error]
  · have hdec : decide (hr = S_OK) = false := by
      simpa using FAILED_ne_S_OK hr hfail
    simp [xmllite_reader_advance, hfail, hcls, hdec]
  · simp [libxml_read_translate, hneg]
  · subst h0
    norm_num [libxml_read_translate]

/-- Witness for C1 at concrete inputs: a genuine XmlLite reader error raises,
a same-sign foreign failure (`0xC00CEE90`, in the reader numeric range but
beyond the table) reports benign `false`, a negative libxml result raises the
stored error, and a zero libxml result reports `false`. -/
theorem C1_witness :
    xmllite_reader_advance 0xC00CEE01 5 =
      Except.error ⟨5, ("unexpected end of input")⟩ ∧
    xmllite_reader_advance 0xC00CEE90 7 = Except.ok false ∧
    libxml_read_translate (-1) ⟨3, ("boom")⟩ = Except.error ⟨3, ("boom")⟩ ∧
    libxml_read_translate 0 ⟨3, ("boom")⟩ = Except.ok false := by
  have h1 := C1_failure_signal_translation 0xC00CEE01 5 (-1) ⟨3, ("boom")⟩ (by decide)
  have h2 := C1_failure_signal_translation 0xC00CEE90 7 0 ⟨3, ("boom")⟩ (by decide)
  exact ⟨(h1.1 (by decide)).trans (by decide), h2.2.1 (by decide),
    h1.2.2.1 (by decide), h2.2.2.2 rfl⟩

/-- C2 counterexample: `qualified_name` does raise when the engine cannot
resolve a name — the libxml branch throws on a `NULL` `xmlTextReaderConstName`
and the XmlLite branch throws on a failed `GetQualifiedName` `HRESULT`
(`0x80070057`, `E_INVALIDARG`), refuting "never raises / degrades rather than
fail". -/
theorem C2_counterexample :
    qualified_name_libxml none = Except.error ("failed to get element name") ∧
    qualified_name_xmllite 0x80070057 ("r") =
      Except.error ("failed to get element name") :=
  ⟨rfl, by decide⟩

/-- C2 (amended): `qualified_name` raises the descriptive error
`"failed to get element name"` exactly when the engine cannot supply a
qualified name for the current node, and otherwise returns the
engine-reported text. -/
theorem C2_qualified_name_raises_on_missing_name (name : String) (hr : Nat) :
    qualified_name_libxml none = Except.error ("failed to get element name") ∧
    qualified_name_libxml (some name) = Except.ok name ∧
    (FAILED hr = true →
      qualified_name_xmllite hr name = Except.error ("failed to get element name")) ∧
    (FAILED hr = false → qualified_name_xmllite hr name = Except.ok name) := by
  refine ⟨rfl, rfl, fun h => ?_, fun h => ?_⟩ <;> simp [qualified_name_xmllite, h]

/-- Witness for the amended C2 at concrete inputs. -/
theorem C2_witness :
    qualified_name_xmllite 0x80070057 ("n") =
      Except.error ("failed to get element name") ∧
    qualified_name_xmllite 0 ("n") = Except.ok ("n") :=
  ⟨(C2_qualified_name_raises_on_missing_name ("n") 0x80070057).2.2.1 (by decide),
   (C2_qualified_name_raises_on_missing_name ("n") 0).2.2.2 (by decide)⟩

/-- C3: `end_document` closes every element still open and flushes the
buffered output to the destination, raising the Write Error
`"error ending document"` exactly on underlying (sink) failure; on the
XmlLite backend, which flushes implicitly at destruction, the call is a
safely-callable no-op success. -/
theorem C3_end_document (s : XmlTextWriter) :
    (s.sinkOk = true →
      end_document_libxml s = Except.ok (endDocumentState s) ∧
      (endDocumentState s).openElements = [] ∧
      (endDocumentState s).buffer = [] ∧
      (endDocumentState s).sink = s.sink ++ (s.buffer ++ closeTags s.openElements)) ∧
    (s.sinkOk = false →
      end_document_libxml s = Except.error ⟨("error ending document")⟩) ∧
    end_document_xmllite = Except.ok () := by
  refine ⟨fun h => ⟨?_, rfl, rfl, rfl⟩, fun h => ?_, rfl⟩
  · simp [end_document_libxml, xmlTextWriterEndDocument, h]
  · simp [end_document_libxml, xmlTextWriterEndDocument, h]

/-- Witness for C3: a writer with one open element and a buffered start tag
flushes everything and closes the element; a failing sink raises. -/
theorem C3_witness :
    end_document_libxml ⟨true, [("a")], [OutItem.startTag ("") ("a") ("")], [], true⟩ =
      Except.ok ⟨true, [], [],
        [OutItem.startTag ("") ("a") (""), OutItem.endTag ("a")], true⟩ ∧
    end_document_libxml ⟨true, [], [], [], false⟩ =
      Except.error ⟨("error ending document")⟩ := by
  refine ⟨?_, ?_⟩
  · exact (((C3_end_document
      ⟨true, [("a")], [OutItem.startTag ("") ("a") ("")], [], true⟩).1 rfl).1).trans (by decide)
  · exact (C3_end_document ⟨true, [], [], [], false⟩).2.1 rfl

/-- C4: evaluation of the stream-bridge read callback at the failing input.
On a stream holding one remaining byte and no error condition (`badbit`
stays `false`), a 4-byte request makes `xml_reader_inputReadCallback` report
the error sentinel `-1` instead of the byte count, because `istream::read`
sets `failbit` on an end-of-stream-truncated read; the XmlLite-side
`com_istream::Read` on the same stream correctly reports the count `1` with
the benign `S_FALSE`. -/
theorem C4_eof_reported_as_error_not_count :
    xml_reader_inputReadCallback ⟨[60], false, false, false⟩ 4 =
      (-1, ⟨[], true, true, false⟩) ∧
    (⟨[], true, true, false⟩ : cpp_istream).badbit = false ∧
    com_istream_Read ⟨[60], false, false, false⟩ 4 =
      (S_FALSE, 1, ⟨[], true, true, false⟩) :=
  ⟨by decide, rfl, by decide⟩

/-- C5: in every writer-call sequence with more `end_element` calls than
unmatched `start_element` calls, the excess `end_element` raises the Write
Error `"error ending element"` (libxml backend), and the XmlLite engine's
rejection `HRESULT` for the same condition is classified as a writer error
and surfaced as a Write Error rather than silently ignored. -/
theorem C5_excess_end_element (ops : List WriterOp) (s : XmlTextWriter)
    (h : excess_end s.openElements.length ops = true) :
    run_writer_ops ops s = Except.error ⟨("error ending element")⟩ ∧
    end_element_xmllite WR_E_INVALIDACTION =
      Except.error
        ⟨("performing the requested action would result in invalid XML document")⟩ :=
  ⟨run_writer_ops_excess ops s h, by decide⟩

/-- Witness for C5: a lone `end_element` on a fresh writer raises. -/
theorem C5_witness :
    run_writer_ops [WriterOp.endEl] ⟨false, [], [], [], true⟩ =
      Except.error ⟨("error ending element")⟩ ∧
    end_element_xmllite WR_E_INVALIDACTION =
      Except.error
        ⟨("performing the requested action would result in invalid XML document")⟩ :=
  C5_excess_end_element [WriterOp.endEl] ⟨false, [], [], [], true⟩ (by decide)

/-- C6: once `advance` has reported `false`, every subsequent call also
reports `false` and never again `true`, on both backends. -/
theorem C6_exhaustion_idempotent :
    (∀ st st' : libxml_reader_state, libxml_read st = Except.ok (false, st') →
      ∀ n, libxml_reads n st' = Except.ok (false, st')) ∧
    (∀ t t' : xmllite_reader_state, xmllite_read_op t = Except.ok (false, t') →
      ∀ n, xmllite_reads n t' = Except.ok (false, t')) := by
  constructor
  · intro st st' h n
    obtain ⟨hst, hev⟩ := libxml_read_false_inv st st' h
    subst hst
    exact libxml_reads_nil n st' hev
  · intro t t' h n
    have ht := xmllite_read_false_inv t t' h
    subst ht
    exact xmllite_reads_fixed n t' h

/-- Witness for C6: three further reads after exhaustion all report `false`
on both backends. -/
theorem C6_witness :
    libxml_reads 3 ⟨[], ⟨0, ("")⟩⟩ = Except.ok (false, ⟨[], ⟨0, ("")⟩⟩) ∧
    xmllite_reads 3 ⟨[], 9⟩ = Except.ok (false, ⟨[], 9⟩) :=
  ⟨C6_exhaustion_idempotent.1 ⟨[], ⟨0, ("")⟩⟩ ⟨[], ⟨0, ("")⟩⟩ (by decide) 3,
   C6_exhaustion_idempotent.2 ⟨[], 9⟩ ⟨[], 9⟩ (by decide) 3⟩

/-- C7: `start_document` emits an XML declaration with defaulted version
`"1.0"` and fixed UTF-8 encoding; the standalone pseudo-attribute is omitted
for `omit`, `"yes"` for `yes` and `"no"` for `no`; the Write Error
`"error starting document"` is raised exactly when the engine reports
failure (and the XmlLite branch surfaces the engine's own writer errors). -/
theorem C7_start_document (sa : standalone) (s : XmlTextWriter) (hr : Nat) :
    (s.started = false →
      start_document_libxml sa s =
        Except.ok (startDocumentState s none (some ("utf-8")) (standalone_str sa)) ∧
      (startDocumentState s none (some ("utf-8")) (standalone_str sa)).buffer =
        s.buffer ++ [OutItem.decl ("1.0") (some ("utf-8")) (standalone_str sa)]) ∧
    (s.started = true →
      start_document_libxml sa s = Except.error ⟨("error starting document")⟩) ∧
    standalone_str standalone.omit = none ∧
    standalone_str standalone.yes = some ("yes") ∧
    standalone_str standalone.no = some ("no") ∧
    (FAILED hr = true → is_xmllite_writer_error hr = true →
      start_document_xmllite sa hr = Except.error (throw_write_error hr)) ∧
    (FAILED hr = false → start_document_xmllite sa hr = Except.ok ()) := by
  refine ⟨fun h => ⟨?_, rfl⟩, fun h => ?_, rfl, rfl, rfl, fun h1 h2 => ?_, fun h1 => ?_⟩
  · simp [start_document_libxml, xmlTextWriterStartDocument, h]
  · simp [start_document_libxml, xmlTextWriterStartDocument, h]
  · simp [start_document_xmllite, xmllite_writer_op, h1, h2]
  · simp [start_document_xmllite, xmllite_writer_op, h1]

/-- Witness for C7 at concrete inputs: each standalone mode on a fresh
writer, plus a surfaced XmlLite writer error. -/
theorem C7_witness :
    start_document_libxml standalone.omit ⟨false, [], [], [], true⟩ =
      Except.ok ⟨true, [], [OutItem.decl ("1.0") (some ("utf-8")) none], [], true⟩ ∧
    start_document_libxml standalone.yes ⟨false, [], [], [], true⟩ =
      Except.ok ⟨true, [],
        [OutItem.decl ("1.0") (some ("utf-8")) (some ("yes"))], [], true⟩ ∧
    start_document_libxml standalone.no ⟨false, [], [], [], true⟩ =
      Except.ok ⟨true, [],
        [OutItem.decl ("1.0") (some ("utf-8")) (some ("no"))], [], true⟩ ∧
    start_document_xmllite standalone.omit 0xC00CEF01 =
      Except.error ⟨("specified string is not whitespace")⟩ := by
  refine ⟨?_, ?_, ?_, ?_⟩
  · exact (((C7_start_document standalone.omit
      ⟨false, [], [], [], true⟩ 0).1 rfl).1).trans (by decide)
  · exact (((C7_start_document standalone.yes
      ⟨false, [], [], [], true⟩ 0).1 rfl).1).trans (by decide)
  · exact (((C7_start_document standalone.no
      ⟨false, [], [], [], true⟩ 0).1 rfl).1).trans (by decide)
  · exact ((C7_start_document standalone.omit
      ⟨false, [], [], [], true⟩ 0xC00CEF01).2.2.2.2.2.1
        (by decide) (by decide)).trans (by decide)

/-- C8: the `node_type_id` enumeration carries exactly the numeric values
0, 1, 2, 3, 4, 7, 8, 10, 13, 15, 17 for its eleven enumerators, and
`node_type`'s `static_cast` passes the engine-reported code through
value-preservingly, with no translation table. -/
theorem C8_node_type_values :
    (node_type_id.val node_type_id.none_id = 0 ∧
     node_type_id.val node_type_id.element_id = 1 ∧
     node_type_id.val node_type_id.attribute_id = 2 ∧
     node_type_id.val node_type_id.text_id = 3 ∧
     node_type_id.val node_type_id.cdata_id = 4 ∧
     node_type_id.val node_type_id.processing_instruction_id = 7 ∧
     node_type_id.val node_type_id.comment_id = 8 ∧
     node_type_id.val node_type_id.document_type_id = 10 ∧
     node_type_id.val node_type_id.whitespace_id = 13 ∧
     node_type_id.val node_type_id.end_element_id = 15 ∧
     node_type_id.val node_type_id.xml_declaration_id = 17) ∧
    ∀ t : node_type_id, node_type_cast (node_type_id.val t) = some t := by
  refine ⟨⟨rfl, rfl, rfl, rfl, rfl, rfl, rfl, rfl, rfl, rfl, rfl⟩, fun t => ?_⟩
  cases t <;> rfl

/-- C9: evaluation at the failing input `0xC00CE01D` (the low end of the
misc-error range, which lies below both the reader and the writer bases).
Both classification predicates accept it, yet the table indices that
`throw_parse_error` / `throw_write_error` then use wrap around to nearly
`2 ^ 64` — far outside the 114-entry reader table and the 13-entry writer
table — so the claimed in-bounds property fails for misc-range `HRESULT`s. -/
theorem C9_misc_range_index_out_of_bounds :
    is_xmllite_reader_error 0xC00CE01D = true ∧
    is_xmllite_writer_error 0xC00CE01D = true ∧
    reader_errmsg.length = 114 ∧
    writer_errmsg.length = 13 ∧
    reader_errmsg_index 0xC00CE01D = 2 ^ 64 - 3555 ∧
    writer_errmsg_index 0xC00CE01D = 2 ^ 64 - 3811 ∧
    ¬ reader_errmsg_index 0xC00CE01D < reader_errmsg.length ∧
    ¬ writer_errmsg_index 0xC00CE01D < writer_errmsg.length := by
  decide

/-- C10: on the libxml backend the stored error starts as the
default-initialized `{0, ""}`, so a negative engine return observed before
the error callback has ever fired raises exactly the parse error with line 0
and empty message. -/
theorem C10_default_error_before_callback :
    libxml_initial_error = ⟨0, ("")⟩ ∧
    (∀ evs : List libxml_read_event,
      libxml_read ⟨libxml_read_event.errSilent :: evs, libxml_initial_error⟩ =
        Except.error ⟨0, ("")⟩) ∧
    (∀ result : Int, result < 0 →
      libxml_read_translate result libxml_initial_error =
        Except.error ⟨0, ("")⟩) := by
  refine ⟨rfl, fun evs => rfl, fun result h => ?_⟩
  simp [libxml_read_translate, libxml_initial_error, h]

/-- Witness for C10 at the concrete engine result `-1`. -/
theorem C10_witness :
    libxml_read_translate (-1) libxml_initial_error = Except.error ⟨0, ("")⟩ :=
  C10_default_error_before_callback.2.2 (-1) (by decide)

end Xmlrw
